import Mathlib

/-!
Shallow embedding of the USB control-transfer core declared in
`src/firmware/include/usb.h` (EZ-USB firmware).  Structs are embedded as
Lean structures, their on-the-wire serialisation as byte-list functions
(little-endian, packed, as on the 8051 target), and the C macros and
constants as Lean definitions with the same names.  Parts of the firmware
that the header only declares (the control request dispatcher, the
descriptor store and the interrupt/foreground handoff) are modelled from
the specification; each such definition is marked in its doc comment.
-/

namespace Usb

/-- Little-endian serialisation of a 16-bit field into two bytes. -/
def le16 (w : Nat) : List Nat := [w % 256, w / 256 % 256]

/-- Embedding of `struct setup_data` (usb.h lines 159-165): bmRequestType(1), bRequest(1),
wValue(2), wIndex(2), wLength(2). -/
structure SetupData where
  bmRequestType : Nat
  bRequest : Nat
  wValue : Nat
  wIndex : Nat
  wLength : Nat
deriving DecidableEq, Repr

/-- Packed on-the-wire layout of `struct setup_data`, fields in declaration
order, multi-byte fields little-endian. -/
def SetupData.serialize (s : SetupData) : List Nat :=
  [s.bmRequestType % 256, s.bRequest % 256]
    ++ le16 s.wValue ++ le16 s.wIndex ++ le16 s.wLength

/- bmRequestType constants, usb.h lines 193-204. -/

def USB_DIR_OUT : Nat := 0x00
def USB_DIR_IN : Nat := 0x80

def USB_REQ_TYPE_STANDARD : Nat := 0x00 <<< 5
def USB_REQ_TYPE_CLASS : Nat := 0x01 <<< 5
def USB_REQ_TYPE_VENDOR : Nat := 0x02 <<< 5
def USB_REQ_TYPE_RESERVED : Nat := 0x03 <<< 5

def USB_RECIP_DEVICE : Nat := 0x00
def USB_RECIP_INTERFACE : Nat := 0x01
def USB_RECIP_ENDPOINT : Nat := 0x02
def USB_RECIP_OTHER : Nat := 0x03

/- Composite bmRequestType values for the standard requests,
usb.h lines 209-244. -/

def USB_RECIP_CF_DEVICE : Nat := USB_DIR_OUT ||| USB_REQ_TYPE_STANDARD ||| USB_RECIP_DEVICE
def USB_RECIP_CF_INTERFACE : Nat := USB_DIR_OUT ||| USB_REQ_TYPE_STANDARD ||| USB_RECIP_INTERFACE
def USB_RECIP_CF_ENDPOINT : Nat := USB_DIR_OUT ||| USB_REQ_TYPE_STANDARD ||| USB_RECIP_ENDPOINT
def USB_RECIP_GC_DEVICE : Nat := USB_DIR_IN ||| USB_REQ_TYPE_STANDARD ||| USB_RECIP_DEVICE
def USB_RECIP_GD_DEVICE : Nat := USB_DIR_IN ||| USB_REQ_TYPE_STANDARD ||| USB_RECIP_DEVICE
def USB_RECIP_GI_INTERFACE : Nat := USB_DIR_IN ||| USB_REQ_TYPE_STANDARD ||| USB_RECIP_INTERFACE
def USB_RECIP_GS_DEVICE : Nat := USB_DIR_IN ||| USB_REQ_TYPE_STANDARD ||| USB_RECIP_DEVICE
def USB_RECIP_GS_INTERFACE : Nat := USB_DIR_IN ||| USB_REQ_TYPE_STANDARD ||| USB_RECIP_INTERFACE
def USB_RECIP_GS_ENDPOINT : Nat := USB_DIR_IN ||| USB_REQ_TYPE_STANDARD ||| USB_RECIP_ENDPOINT
def USB_RECIP_SC_DEVICE : Nat := USB_DIR_OUT ||| USB_REQ_TYPE_STANDARD ||| USB_RECIP_DEVICE
def USB_RECIP_SD_DEVICE : Nat := USB_DIR_OUT ||| USB_REQ_TYPE_STANDARD ||| USB_RECIP_DEVICE
def USB_RECIP_SF_DEVICE : Nat := USB_DIR_OUT ||| USB_REQ_TYPE_STANDARD ||| USB_RECIP_DEVICE
def USB_RECIP_SF_INTERFACE : Nat := USB_DIR_OUT ||| USB_REQ_TYPE_STANDARD ||| USB_RECIP_INTERFACE
def USB_RECIP_SF_ENDPOINT : Nat := USB_DIR_OUT ||| USB_REQ_TYPE_STANDARD ||| USB_RECIP_ENDPOINT
def USB_RECIP_SI_INTERFACE : Nat := USB_DIR_OUT ||| USB_REQ_TYPE_STANDARD ||| USB_RECIP_INTERFACE
def USB_RECIP_SY_ENDPOINT : Nat := USB_DIR_IN ||| USB_REQ_TYPE_STANDARD ||| USB_RECIP_ENDPOINT

/-- Bit 7 of bmRequestType: data transfer direction (usb.h lines 174-191). -/
def direction (b : Nat) : Nat := b &&& 0x80

/-- Bits 6..5 of bmRequestType: request type (Standard/Class/Vendor/Reserved). -/
def reqType (b : Nat) : Nat := b >>> 5 &&& 0x03

/-- Bits 4..0 of bmRequestType: recipient (Device/Interface/Endpoint/Other). -/
def recipient (b : Nat) : Nat := b &&& 0x1f

/- Descriptor type codes, usb.h lines 37-41. -/

def USB_DESCRIPTOR_TYPE_DEVICE : Nat := 0x01
def USB_DESCRIPTOR_TYPE_CONFIGURATION : Nat := 0x02
def USB_DESCRIPTOR_TYPE_STRING : Nat := 0x03
def USB_DESCRIPTOR_TYPE_INTERFACE : Nat := 0x04
def USB_DESCRIPTOR_TYPE_ENDPOINT : Nat := 0x05

/-- Embedding of `struct usb_device_descriptor` (usb.h lines 90-105), 14 fields. -/
structure UsbDeviceDescriptor where
  bLength : Nat
  bDescriptorType : Nat
  bcdUSB : Nat
  bDeviceClass : Nat
  bDeviceSubClass : Nat
  bDeviceProtocol : Nat
  bMaxPacketSize0 : Nat
  idVendor : Nat
  idProduct : Nat
  bcdDevice : Nat
  iManufacturer : Nat
  iProduct : Nat
  iSerialNumber : Nat
  bNumConfigurations : Nat
deriving DecidableEq, Repr

/-- Packed layout of the device descriptor, field order as declared. -/
def UsbDeviceDescriptor.serialize (d : UsbDeviceDescriptor) : List Nat :=
  [d.bLength % 256, d.bDescriptorType % 256] ++ le16 d.bcdUSB
    ++ [d.bDeviceClass % 256, d.bDeviceSubClass % 256, d.bDeviceProtocol % 256,
        d.bMaxPacketSize0 % 256]
    ++ le16 d.idVendor ++ le16 d.idProduct ++ le16 d.bcdDevice
    ++ [d.iManufacturer % 256, d.iProduct % 256, d.iSerialNumber % 256,
        d.bNumConfigurations % 256]

/-- Field widths in bytes of `struct usb_device_descriptor`, in declaration
order: uint8_t ×2, uint16_t, uint8_t ×4, uint16_t ×3, uint8_t ×4. -/
def deviceFieldWidths : List Nat := [1, 1, 2, 1, 1, 1, 1, 2, 2, 2, 1, 1, 1, 1]

/-- Embedding of `struct usb_config_descriptor` (usb.h lines 108-117), 8 fields. -/
structure UsbConfigDescriptor where
  bLength : Nat
  bDescriptorType : Nat
  wTotalLength : Nat
  bNumInterfaces : Nat
  bConfigurationValue : Nat
  iConfiguration : Nat
  bmAttributes : Nat
  MaxPower : Nat
deriving DecidableEq, Repr

/-- Packed layout of the configuration descriptor. -/
def UsbConfigDescriptor.serialize (c : UsbConfigDescriptor) : List Nat :=
  [c.bLength % 256, c.bDescriptorType % 256] ++ le16 c.wTotalLength
    ++ [c.bNumInterfaces % 256, c.bConfigurationValue % 256, c.iConfiguration % 256,
        c.bmAttributes % 256, c.MaxPower % 256]

/-- Field widths in bytes of `struct usb_config_descriptor`. -/
def configFieldWidths : List Nat := [1, 1, 2, 1, 1, 1, 1, 1]

/-- Embedding of `struct usb_interface_descriptor` (usb.h lines 120-130), 9 fields. -/
structure UsbInterfaceDescriptor where
  bLength : Nat
  bDescriptorType : Nat
  bInterfaceNumber : Nat
  bAlternateSetting : Nat
  bNumEndpoints : Nat
  bInterfaceClass : Nat
  bInterfaceSubclass : Nat
  bInterfaceProtocol : Nat
  iInterface : Nat
deriving DecidableEq, Repr

/-- Packed layout of the interface descriptor (all fields one byte). -/
def UsbInterfaceDescriptor.serialize (i : UsbInterfaceDescriptor) : List Nat :=
  [i.bLength % 256, i.bDescriptorType % 256, i.bInterfaceNumber % 256,
   i.bAlternateSetting % 256, i.bNumEndpoints % 256, i.bInterfaceClass % 256,
   i.bInterfaceSubclass % 256, i.bInterfaceProtocol % 256, i.iInterface % 256]

/-- Field widths in bytes of `struct usb_interface_descriptor`. -/
def interfaceFieldWidths : List Nat := [1, 1, 1, 1, 1, 1, 1, 1, 1]

/-- Embedding of `struct usb_endpoint_descriptor` (usb.h lines 133-140), 6 fields. -/
structure UsbEndpointDescriptor where
  bLength : Nat
  bDescriptorType : Nat
  bEndpointAddress : Nat
  bmAttributes : Nat
  wMaxPacketSize : Nat
  bInterval : Nat
deriving DecidableEq, Repr

/-- Packed layout of the endpoint descriptor. -/
def UsbEndpointDescriptor.serialize (e : UsbEndpointDescriptor) : List Nat :=
  [e.bLength % 256, e.bDescriptorType % 256, e.bEndpointAddress % 256,
   e.bmAttributes % 256] ++ le16 e.wMaxPacketSize ++ [e.bInterval % 256]

/-- Field widths in bytes of `struct usb_endpoint_descriptor`. -/
def endpointFieldWidths : List Nat := [1, 1, 1, 1, 2, 1]

/-- Embedding of `struct usb_string_descriptor` (usb.h lines 150-154): header plus a
flexible array of 16-bit code units. -/
structure UsbStringDescriptor where
  bLength : Nat
  bDescriptorType : Nat
  bString : List Nat
deriving DecidableEq, Repr

/-- Packed layout of a string descriptor: two header bytes, then each 16-bit
code unit little-endian. -/
def UsbStringDescriptor.serialize (s : UsbStringDescriptor) : List Nat :=
  [s.bLength % 256, s.bDescriptorType % 256] ++ (s.bString.map le16).flatten

/-- Constant `USB_LANG_ENGLISH_US` (usb.h line 79). -/
def USB_LANG_ENGLISH_US : Nat := 0x009 ||| (0x01 <<< 10)

/-- The `STR_DESCR(len, ...)` macro (usb.h line 87): builds a string
descriptor with bLength = len*2+2, type STRING, and the given code units. -/
def STR_DESCR (len : Nat) (units : List Nat) : UsbStringDescriptor :=
  ⟨len * 2 + 2, USB_DESCRIPTOR_TYPE_STRING, units⟩

/-- Embedding of `struct usb_language_descriptor` (usb.h lines 143-147): header plus a
flexible array of 16-bit LANGID codes. -/
structure UsbLanguageDescriptor where
  bLength : Nat
  bDescriptorType : Nat
  wLANGID : List Nat
deriving DecidableEq, Repr

/-- Packed layout of a language descriptor. -/
def UsbLanguageDescriptor.serialize (d : UsbLanguageDescriptor) : List Nat :=
  [d.bLength % 256, d.bDescriptorType % 256] ++ (d.wLANGID.map le16).flatten

/-- Modelled from the spec: a language descriptor enumerating the supported
LANGIDs, self-describing like every build-time descriptor (its definition in
usb.c is not in src/). -/
def mkLanguageDescriptor (langids : List Nat) : UsbLanguageDescriptor :=
  ⟨langids.length * 2 + 2, USB_DESCRIPTOR_TYPE_STRING, langids⟩

/-- Modelled from the spec: the Descriptor Store (§4.1), a build-time table
of the device descriptor, one configuration with its nested interface and
endpoint descriptors, the supported LANGIDs, and the string-descriptor code
units (each string is emitted through `STR_DESCR`); the concrete table in
usb.c is not in src/. -/
structure DescriptorStore where
  device : UsbDeviceDescriptor
  config : UsbConfigDescriptor
  interfaces : List UsbInterfaceDescriptor
  endpoints : List UsbEndpointDescriptor
  langids : List Nat
  strings : List (List Nat)
deriving DecidableEq, Repr

/-- The single contiguous byte sequence served for a CONFIGURATION request:
the configuration descriptor followed by all nested interface and endpoint
descriptors (§4.1). -/
def DescriptorStore.configBundle (st : DescriptorStore) : List Nat :=
  st.config.serialize
    ++ (st.interfaces.map UsbInterfaceDescriptor.serialize).flatten
    ++ (st.endpoints.map UsbEndpointDescriptor.serialize).flatten

/-- Modelled from the spec: `getDescriptor(type, index, languageId) -> bytes
or NOT_FOUND` (§4.1).  Device and Configuration ignore index/language;
String index 0 is the language descriptor; other string indices require a
supported language and an in-range index. -/
def getDescriptor (st : DescriptorStore) (ty idx lang : Nat) : Option (List Nat) :=
  if ty = USB_DESCRIPTOR_TYPE_DEVICE then
    some st.device.serialize
  else if ty = USB_DESCRIPTOR_TYPE_CONFIGURATION then
    some st.configBundle
  else if ty = USB_DESCRIPTOR_TYPE_STRING then
    if idx = 0 then
      some (mkLanguageDescriptor st.langids).serialize
    else if lang ∈ st.langids then
      (st.strings[idx - 1]?).map fun units => (STR_DESCR units.length units).serialize
    else none
  else none

/-- Byte-range well-formedness of a build-time store: every descriptor's
bLength field holds its struct's serialized size and fits in a uint8_t. -/
def DescriptorStore.WF (st : DescriptorStore) : Prop :=
  st.device.bLength = 18 ∧ st.config.bLength = 9
    ∧ (∀ i ∈ st.interfaces, i.bLength = 9)
    ∧ (∀ e ∈ st.endpoints, e.bLength = 7)
    ∧ st.langids.length * 2 + 2 < 256
    ∧ (∀ u ∈ st.strings, u.length * 2 + 2 < 256)

/-- Modelled from the spec: the build-time invariant that `wTotalLength` of
the configuration descriptor equals its own length plus the lengths of all
nested interface and endpoint descriptors (§4.1); the concrete table in
usb.c is not in src/. -/
def DescriptorStore.TotalLengthWF (st : DescriptorStore) : Prop :=
  st.config.wTotalLength = 9 + 9 * st.interfaces.length + 7 * st.endpoints.length

/- Standard request codes (bRequest), usb.h lines 247-259; values 2 and 4
are reserved. -/

def USB_REQ_GET_STATUS : Nat := 0
def USB_REQ_CLEAR_FEATURE : Nat := 1
def USB_REQ_SET_FEATURE : Nat := 3
def USB_REQ_SET_ADDRESS : Nat := 5
def USB_REQ_GET_DESCRIPTOR : Nat := 6
def USB_REQ_SET_DESCRIPTOR : Nat := 7
def USB_REQ_GET_CONFIGURATION : Nat := 8
def USB_REQ_SET_CONFIGURATION : Nat := 9
def USB_REQ_GET_INTERFACE : Nat := 10
def USB_REQ_SET_INTERFACE : Nat := 11
def USB_REQ_SYNCH_FRAME : Nat := 12

/-- The twelve defined standard request codes. -/
def standardRequestCodes : List Nat :=
  [USB_REQ_GET_STATUS, USB_REQ_CLEAR_FEATURE, USB_REQ_SET_FEATURE,
   USB_REQ_SET_ADDRESS, USB_REQ_GET_DESCRIPTOR, USB_REQ_SET_DESCRIPTOR,
   USB_REQ_GET_CONFIGURATION, USB_REQ_SET_CONFIGURATION,
   USB_REQ_GET_INTERFACE, USB_REQ_SET_INTERFACE, USB_REQ_SYNCH_FRAME]

/- Standard feature selectors, usb.h lines 262-263. -/

def DEVICE_REMOTE_WAKEUP : Nat := 1
def ENDPOINT_HALT : Nat := 0

/-- Outcome of a standard-request handler: an IN data stage, a successful
no-data acknowledgment, or a request to stall the control endpoint. -/
inductive HandlerOutcome where
  | reply : List Nat → HandlerOutcome
  | ack : HandlerOutcome
  | stall : HandlerOutcome
deriving DecidableEq, Repr

/-- Modelled from the spec (§4.2): CLEAR_FEATURE / SET_FEATURE recognise
only ENDPOINT_HALT with endpoint recipient and DEVICE_REMOTE_WAKEUP with
device recipient; any other feature selector stalls.  The dispatcher code in
usb.c is not in src/. -/
def handleFeature (s : SetupData) : HandlerOutcome :=
  if (s.wValue = ENDPOINT_HALT ∧ recipient s.bmRequestType = USB_RECIP_ENDPOINT)
      ∨ (s.wValue = DEVICE_REMOTE_WAKEUP ∧ recipient s.bmRequestType = USB_RECIP_DEVICE)
  then .ack else .stall

/-- Modelled from the spec (§4.2): GET_DESCRIPTOR takes the descriptor type
from the high byte of wValue, the index from its low byte and the language
from wIndex, delegates to the Descriptor Store, stalls on NOT_FOUND, and
returns min(descriptor length, wLength) bytes.  Not in src/. -/
def handleGetDescriptor (st : DescriptorStore) (s : SetupData) : HandlerOutcome :=
  match getDescriptor st (s.wValue / 256) (s.wValue % 256) s.wIndex with
  | some bytes => .reply (bytes.take s.wLength)
  | none => .stall

/-- Modelled from the spec (§4.2): standard-request routing of the Control
Request Dispatcher by bRequest; an unrecognised code stalls.  The dispatcher
code in usb.c is not in src/. -/
def dispatchStandard (st : DescriptorStore) (s : SetupData) : HandlerOutcome :=
  if s.bRequest = USB_REQ_GET_STATUS then
    (if recipient s.bmRequestType = USB_RECIP_INTERFACE then .stall else .reply [0, 0])
  else if s.bRequest = USB_REQ_CLEAR_FEATURE then handleFeature s
  else if s.bRequest = USB_REQ_SET_FEATURE then handleFeature s
  else if s.bRequest = USB_REQ_SET_ADDRESS then .ack
  else if s.bRequest = USB_REQ_GET_DESCRIPTOR then handleGetDescriptor st s
  else if s.bRequest = USB_REQ_SET_DESCRIPTOR then .stall
  else if s.bRequest = USB_REQ_GET_CONFIGURATION then .reply [0]
  else if s.bRequest = USB_REQ_SET_CONFIGURATION then .ack
  else if s.bRequest = USB_REQ_GET_INTERFACE then .reply [0]
  else if s.bRequest = USB_REQ_SET_INTERFACE then .ack
  else if s.bRequest = USB_REQ_SYNCH_FRAME then .stall
  else .stall

/-- States of the per-transfer control state machine (§4.2). -/
inductive CtrlState where
  | IDLE
  | SETUP_RECEIVED
  | DATA_IN
  | DATA_OUT
  | NO_DATA
  | STATUS
  | ERROR_STALL
deriving DecidableEq, Repr

/-- Modelled from the spec (§4.2): the state reached from SETUP_RECEIVED
after routing one standard request; a stalling outcome moves to ERROR_STALL,
otherwise wLength = 0 forces the NO_DATA path and bit 7 of bmRequestType
selects the data direction. -/
def nextState (st : DescriptorStore) (s : SetupData) : CtrlState :=
  match dispatchStandard st s with
  | .stall => .ERROR_STALL
  | .reply _ => if s.wLength = 0 then .NO_DATA else .DATA_IN
  | .ack => if s.wLength = 0 then .NO_DATA else .DATA_OUT

/-- Modelled from the spec: the EP0STALL bit of the EP0CS register; its
numeric definition lives in reg_ezusb.h, which is not in src/.  It is a
single-bit mask. -/
def EP0STALL : Nat := 0x01

/-- The `STALL_EP0()` macro (usb.h line 31): `EP0CS |= EP0STALL`, a
read-modify-write OR of the stall bit into the EP0CS register. -/
def STALL_EP0 (ep0cs : Nat) : Nat := ep0cs ||| EP0STALL

/-- Modelled from the spec (§4.2, §7): the effect of one dispatch on the
EP0CS register: a stalling outcome runs `STALL_EP0()`, otherwise EP0CS is
left alone. -/
def dispatchEP0CS (st : DescriptorStore) (s : SetupData) (ep0cs : Nat) : Nat :=
  match dispatchStandard st s with
  | .stall => STALL_EP0 ep0cs
  | _ => ep0cs

/-- One cross-context signal flag together with event counters used to state
the handoff properties: `raised` counts producer set-events, `consumed`
counts consumer observations. -/
structure Channel where
  flag : Bool
  raised : Nat
  consumed : Nat
deriving DecidableEq, Repr

/-- The three cross-context signal flags declared in usb.h lines 169-171. -/
structure SigSystem where
  Semaphore_Command : Channel
  Semaphore_EP2_out : Channel
  Semaphore_EP2_in : Channel
deriving DecidableEq, Repr

/-- Modelled from the spec (§3, §5): one interleaving step of the
interrupt/foreground system.  Interrupt-context producers set a flag; each
foreground consumer either atomically tests-and-clears its flag (one step,
so no window exists between check and clear) or observes it clear and does
nothing.  The ISR and foreground code in usb.c/main.c is not in src/. -/
inductive SysStep : SigSystem → SigSystem → Prop where
  | isrSetup (s : SigSystem) :
      SysStep s { s with Semaphore_Command :=
        ⟨true, s.Semaphore_Command.raised + 1, s.Semaphore_Command.consumed⟩ }
  | isrEp2Out (s : SigSystem) :
      SysStep s { s with Semaphore_EP2_out :=
        ⟨true, s.Semaphore_EP2_out.raised + 1, s.Semaphore_EP2_out.consumed⟩ }
  | isrEp2In (s : SigSystem) :
      SysStep s { s with Semaphore_EP2_in :=
        ⟨true, s.Semaphore_EP2_in.raised + 1, s.Semaphore_EP2_in.consumed⟩ }
  | dispatcherConsume (s : SigSystem) (h : s.Semaphore_Command.flag = true) :
      SysStep s { s with Semaphore_Command :=
        ⟨false, s.Semaphore_Command.raised, s.Semaphore_Command.consumed + 1⟩ }
  | dispatcherPoll (s : SigSystem) (h : s.Semaphore_Command.flag = false) :
      SysStep s s
  | bulkOutConsume (s : SigSystem) (h : s.Semaphore_EP2_out.flag = true) :
      SysStep s { s with Semaphore_EP2_out :=
        ⟨false, s.Semaphore_EP2_out.raised, s.Semaphore_EP2_out.consumed + 1⟩ }
  | bulkOutPoll (s : SigSystem) (h : s.Semaphore_EP2_out.flag = false) :
      SysStep s s
  | bulkInConsume (s : SigSystem) (h : s.Semaphore_EP2_in.flag = true) :
      SysStep s { s with Semaphore_EP2_in :=
        ⟨false, s.Semaphore_EP2_in.raised, s.Semaphore_EP2_in.consumed + 1⟩ }
  | bulkInPoll (s : SigSystem) (h : s.Semaphore_EP2_in.flag = false) :
      SysStep s s

/-- All three flags clear, no events yet: the state after `usb_init`. -/
def initSignals : SigSystem :=
  ⟨⟨false, 0, 0⟩, ⟨false, 0, 0⟩, ⟨false, 0, 0⟩⟩

/-- Reachability under any interleaving of interrupt and foreground steps. -/
def Reaches : SigSystem → SigSystem → Prop :=
  Relation.ReflTransGen SysStep

/-- Per-channel handoff invariant: counts are consistent and a set flag
always has an unconsumed producer event backing it. -/
def Channel.Inv (c : Channel) : Prop :=
  c.consumed ≤ c.raised ∧ (c.flag = true → c.consumed < c.raised)

/-- System-wide handoff invariant. -/
def SigSystem.Inv (s : SigSystem) : Prop :=
  s.Semaphore_Command.Inv ∧ s.Semaphore_EP2_out.Inv ∧ s.Semaphore_EP2_in.Inv

/-- A small concrete build-time table (one interface, no endpoints, one
language, one two-character string) used to instantiate the theorems on
explicit inputs. -/
def sampleStore : DescriptorStore where
  device := ⟨18, USB_DESCRIPTOR_TYPE_DEVICE, 0x0110, 0xff, 0, 0xff, 64,
             0x0403, 0x6001, 0x0100, 1, 2, 0, 1⟩
  config := ⟨9, USB_DESCRIPTOR_TYPE_CONFIGURATION, 18, 1, 1, 0, 0x80, 50⟩
  interfaces := [⟨9, USB_DESCRIPTOR_TYPE_INTERFACE, 0, 0, 0, 0xff, 0xff, 0xff, 0⟩]
  endpoints := []
  langids := [USB_LANG_ENGLISH_US]
  strings := [[72, 105]]

/-- The signal state after one SETUP interrupt from the initial state. -/
def raisedOnce : SigSystem :=
  { initSignals with Semaphore_Command := ⟨true, 1, 0⟩ }

/- ================================ Theorems ================================ -/

/-- Helper: serialising a list of 16-bit code units yields two bytes each. -/
theorem flatten_le16_length (l : List Nat) : ((l.map le16).flatten).length = 2 * l.length := by
  induction l with
  | nil => simp
  | cons a t ih => simp [le16, ih]; omega

/-- Helper: the stall bit is set after `STALL_EP0()`. -/
theorem STALL_EP0_testBit_zero (x : Nat) : (STALL_EP0 x).testBit 0 = true := by
  simp [STALL_EP0, EP0STALL, Nat.testBit_or]

/-- C1: serialising any `setup_data` value yields exactly 8 bytes, with the
request code occupying the single byte at offset 1; the fields are laid out
in declaration order with widths 1, 1, 2, 2, 2. -/
theorem setup_data_layout (s : SetupData) :
    s.serialize.length = 8
    ∧ s.serialize[1]? = some (s.bRequest % 256)
    ∧ s.serialize
        = [s.bmRequestType % 256] ++ [s.bRequest % 256]
          ++ le16 s.wValue ++ le16 s.wIndex ++ le16 s.wLength := by
  refine ⟨?_, ?_, ?_⟩ <;> simp [SetupData.serialize, le16]

set_option maxRecDepth 4096 in
/-- C2: every bmRequestType byte decomposes into bit 7 (direction, IN = 0x80
or OUT = 0x00), bits 6–5 (type, < 4 after shifting down) and bits 4–0
(recipient, < 32), and recombines from these parts by bitwise OR; every
composite USB_RECIP_* standard-request constant equals the OR of its
direction bit, the Standard type bits (0) and its recipient bits, as shown
by decomposing each one. -/
theorem bmRequestType_bit_layout :
    (∀ b : Fin 256,
        b.val = direction b.val ||| reqType b.val <<< 5 ||| recipient b.val
        ∧ (direction b.val = USB_DIR_IN ∨ direction b.val = USB_DIR_OUT)
        ∧ reqType b.val < 4 ∧ recipient b.val < 32)
    ∧ USB_RECIP_CF_DEVICE = USB_DIR_OUT ||| USB_REQ_TYPE_STANDARD ||| USB_RECIP_DEVICE
    ∧ USB_RECIP_CF_INTERFACE = USB_DIR_OUT ||| USB_REQ_TYPE_STANDARD ||| USB_RECIP_INTERFACE
    ∧ USB_RECIP_CF_ENDPOINT = USB_DIR_OUT ||| USB_REQ_TYPE_STANDARD ||| USB_RECIP_ENDPOINT
    ∧ USB_RECIP_GC_DEVICE = USB_DIR_IN ||| USB_REQ_TYPE_STANDARD ||| USB_RECIP_DEVICE
    ∧ USB_RECIP_GD_DEVICE = USB_DIR_IN ||| USB_REQ_TYPE_STANDARD ||| USB_RECIP_DEVICE
    ∧ USB_RECIP_GI_INTERFACE = USB_DIR_IN ||| USB_REQ_TYPE_STANDARD ||| USB_RECIP_INTERFACE
    ∧ USB_RECIP_GS_DEVICE = USB_DIR_IN ||| USB_REQ_TYPE_STANDARD ||| USB_RECIP_DEVICE
    ∧ USB_RECIP_GS_INTERFACE = USB_DIR_IN ||| USB_REQ_TYPE_STANDARD ||| USB_RECIP_INTERFACE
    ∧ USB_RECIP_GS_ENDPOINT = USB_DIR_IN ||| USB_REQ_TYPE_STANDARD ||| USB_RECIP_ENDPOINT
    ∧ USB_RECIP_SC_DEVICE = USB_DIR_OUT ||| USB_REQ_TYPE_STANDARD ||| USB_RECIP_DEVICE
    ∧ USB_RECIP_SD_DEVICE = USB_DIR_OUT ||| USB_REQ_TYPE_STANDARD ||| USB_RECIP_DEVICE
    ∧ USB_RECIP_SF_DEVICE = USB_DIR_OUT ||| USB_REQ_TYPE_STANDARD ||| USB_RECIP_DEVICE
    ∧ USB_RECIP_SF_INTERFACE = USB_DIR_OUT ||| USB_REQ_TYPE_STANDARD ||| USB_RECIP_INTERFACE
    ∧ USB_RECIP_SF_ENDPOINT = USB_DIR_OUT ||| USB_REQ_TYPE_STANDARD ||| USB_RECIP_ENDPOINT
    ∧ USB_RECIP_SI_INTERFACE = USB_DIR_OUT ||| USB_REQ_TYPE_STANDARD ||| USB_RECIP_INTERFACE
    ∧ USB_RECIP_SY_ENDPOINT = USB_DIR_IN ||| USB_REQ_TYPE_STANDARD ||| USB_RECIP_ENDPOINT
    ∧ direction USB_RECIP_CF_DEVICE = USB_DIR_OUT
    ∧ reqType USB_RECIP_CF_DEVICE = 0 ∧ recipient USB_RECIP_CF_DEVICE = USB_RECIP_DEVICE
    ∧ direction USB_RECIP_CF_INTERFACE = USB_DIR_OUT
    ∧ reqType USB_RECIP_CF_INTERFACE = 0
    ∧ recipient USB_RECIP_CF_INTERFACE = USB_RECIP_INTERFACE
    ∧ direction USB_RECIP_CF_ENDPOINT = USB_DIR_OUT
    ∧ reqType USB_RECIP_CF_ENDPOINT = 0
    ∧ recipient USB_RECIP_CF_ENDPOINT = USB_RECIP_ENDPOINT
    ∧ direction USB_RECIP_GD_DEVICE = USB_DIR_IN
    ∧ reqType USB_RECIP_GD_DEVICE = 0 ∧ recipient USB_RECIP_GD_DEVICE = USB_RECIP_DEVICE
    ∧ direction USB_RECIP_GS_ENDPOINT = USB_DIR_IN
    ∧ reqType USB_RECIP_GS_ENDPOINT = 0
    ∧ recipient USB_RECIP_GS_ENDPOINT = USB_RECIP_ENDPOINT
    ∧ direction USB_RECIP_SF_ENDPOINT = USB_DIR_OUT
    ∧ reqType USB_RECIP_SF_ENDPOINT = 0
    ∧ recipient USB_RECIP_SF_ENDPOINT = USB_RECIP_ENDPOINT
    ∧ direction USB_RECIP_SY_ENDPOINT = USB_DIR_IN
    ∧ reqType USB_RECIP_SY_ENDPOINT = 0
    ∧ recipient USB_RECIP_SY_ENDPOINT = USB_RECIP_ENDPOINT := by
  decide

/-- C3: the serialised device descriptor is exactly 18 bytes (its 14 field
widths summing to 18), the configuration descriptor 9 bytes, each interface
descriptor 9 bytes and each endpoint descriptor 7 bytes, field order and
widths as declared in the structs. -/
theorem descriptor_struct_sizes :
    (∀ d : UsbDeviceDescriptor, d.serialize.length = 18)
    ∧ deviceFieldWidths.length = 14 ∧ deviceFieldWidths.sum = 18
    ∧ (∀ d : UsbDeviceDescriptor, d.serialize.length = deviceFieldWidths.sum)
    ∧ (∀ c : UsbConfigDescriptor, c.serialize.length = 9)
    ∧ configFieldWidths.sum = 9
    ∧ (∀ c : UsbConfigDescriptor, c.serialize.length = configFieldWidths.sum)
    ∧ (∀ i : UsbInterfaceDescriptor, i.serialize.length = 9)
    ∧ interfaceFieldWidths.sum = 9
    ∧ (∀ i : UsbInterfaceDescriptor, i.serialize.length = interfaceFieldWidths.sum)
    ∧ (∀ e : UsbEndpointDescriptor, e.serialize.length = 7)
    ∧ endpointFieldWidths.sum = 7
    ∧ (∀ e : UsbEndpointDescriptor, e.serialize.length = endpointFieldWidths.sum) := by
  refine ⟨fun d => ?_, by decide, by decide, fun d => ?_, fun c => ?_, by decide,
      fun c => ?_, fun i => ?_, by decide, fun i => ?_, fun e => ?_, by decide,
      fun e => ?_⟩
    <;> simp [UsbDeviceDescriptor.serialize, UsbConfigDescriptor.serialize,
          UsbInterfaceDescriptor.serialize, UsbEndpointDescriptor.serialize,
          deviceFieldWidths, configFieldWidths, interfaceFieldWidths,
          endpointFieldWidths, le16]

/-- C10: `STALL_EP0()` performs a read-modify-write OR of the EP0STALL bit
into EP0CS: afterwards the EP0STALL bit is set and every other bit of EP0CS
retains its prior value. -/
theorem STALL_EP0_effect (ep0cs : Nat) :
    (STALL_EP0 ep0cs).testBit 0 = true
    ∧ (∀ j, j ≠ 0 → (STALL_EP0 ep0cs).testBit j = ep0cs.testBit j) := by
  refine ⟨STALL_EP0_testBit_zero ep0cs, ?_⟩
  · intro j hj
    simp [STALL_EP0, EP0STALL, Nat.testBit_or]
    intro h1
    exact absurd (Nat.testBit_one_eq_true_iff_self_eq_zero.mp h1) hj

/-- Witness for C10 at EP0CS = 0xAA and bit 3. -/
theorem STALL_EP0_effect_witness :
    (STALL_EP0 0xAA).testBit 0 = true
    ∧ (STALL_EP0 0xAA).testBit 3 = (0xAA : Nat).testBit 3 :=
  ⟨(STALL_EP0_effect 0xAA).1, (STALL_EP0_effect 0xAA).2 3 (by decide)⟩

/-- C4: a standard SETUP request whose bRequest is not one of the twelve
defined request codes {0, 1, 3, 5, 6, 7, 8, 9, 10, 11, 12} makes the
dispatcher return stall without executing any handler, transition to
ERROR_STALL, and set the stall bit of EP0CS. -/
theorem unknown_bRequest_stalls (st : DescriptorStore) (s : SetupData) (ep0cs : Nat)
    (h : s.bRequest ∉ standardRequestCodes) :
    dispatchStandard st s = .stall
    ∧ nextState st s = .ERROR_STALL
    ∧ (dispatchEP0CS st s ep0cs).testBit 0 = true := by
  simp only [standardRequestCodes, USB_REQ_GET_STATUS, USB_REQ_CLEAR_FEATURE,
    USB_REQ_SET_FEATURE, USB_REQ_SET_ADDRESS, USB_REQ_GET_DESCRIPTOR,
    USB_REQ_SET_DESCRIPTOR, USB_REQ_GET_CONFIGURATION, USB_REQ_SET_CONFIGURATION,
    USB_REQ_GET_INTERFACE, USB_REQ_SET_INTERFACE, USB_REQ_SYNCH_FRAME,
    List.mem_cons, List.mem_singleton, not_or] at h
  obtain ⟨h0, h1, h3, h5, h6, h7, h8, h9, h10, h11, h12⟩ := h
  have hd : dispatchStandard st s = .stall := by
    simp [dispatchStandard, USB_REQ_GET_STATUS, USB_REQ_CLEAR_FEATURE,
      USB_REQ_SET_FEATURE, USB_REQ_SET_ADDRESS, USB_REQ_GET_DESCRIPTOR,
      USB_REQ_SET_DESCRIPTOR, USB_REQ_GET_CONFIGURATION, USB_REQ_SET_CONFIGURATION,
      USB_REQ_GET_INTERFACE, USB_REQ_SET_INTERFACE, USB_REQ_SYNCH_FRAME,
      h0, h1, h3, h5, h6, h7, h8, h9, h10, h11, h12]
  refine ⟨hd, ?_, ?_⟩
  · simp [nextState, hd]
  · have he : dispatchEP0CS st s ep0cs = STALL_EP0 ep0cs := by
      simp [dispatchEP0CS, hd]
    rw [he]
    exact STALL_EP0_testBit_zero ep0cs

/-- Witness for C4 at the reserved request code 2. -/
theorem unknown_bRequest_stalls_witness :
    dispatchStandard sampleStore ⟨0, 2, 0, 0, 0⟩ = .stall
    ∧ nextState sampleStore ⟨0, 2, 0, 0, 0⟩ = .ERROR_STALL
    ∧ (dispatchEP0CS sampleStore ⟨0, 2, 0, 0, 0⟩ 0).testBit 0 = true :=
  unknown_bRequest_stalls sampleStore ⟨0, 2, 0, 0, 0⟩ 0 (by decide)

/-- C5: a CLEAR_FEATURE or SET_FEATURE request is executed (not stalled)
exactly when the feature selector is ENDPOINT_HALT (0) with endpoint
recipient or DEVICE_REMOTE_WAKEUP (1) with device recipient; every other
feature selector / recipient combination stalls the control endpoint. -/
theorem feature_selector_gate (st : DescriptorStore) (s : SetupData)
    (h : s.bRequest = USB_REQ_CLEAR_FEATURE ∨ s.bRequest = USB_REQ_SET_FEATURE) :
    (dispatchStandard st s ≠ .stall ↔
      (s.wValue = ENDPOINT_HALT ∧ recipient s.bmRequestType = USB_RECIP_ENDPOINT)
      ∨ (s.wValue = DEVICE_REMOTE_WAKEUP ∧ recipient s.bmRequestType = USB_RECIP_DEVICE))
    ∧ (dispatchStandard st s = .stall ∨ dispatchStandard st s = .ack) := by
  have hd : dispatchStandard st s = handleFeature s := by
    rcases h with h | h <;>
      simp [dispatchStandard, h, USB_REQ_GET_STATUS, USB_REQ_CLEAR_FEATURE,
        USB_REQ_SET_FEATURE]
  rw [hd]
  unfold handleFeature
  split
  case isTrue hc => simpa using hc
  case isFalse hc => simpa using hc

/-- Witness for C5: CLEAR_FEATURE with selector 5 (unknown) on an endpoint
recipient, instantiating the gate at a concrete request. -/
theorem feature_selector_gate_witness :
    (dispatchStandard sampleStore ⟨0x02, 1, 5, 0x81, 0⟩ ≠ .stall ↔
      ((5 : Nat) = ENDPOINT_HALT ∧ recipient 0x02 = USB_RECIP_ENDPOINT)
      ∨ ((5 : Nat) = DEVICE_REMOTE_WAKEUP ∧ recipient 0x02 = USB_RECIP_DEVICE))
    ∧ (dispatchStandard sampleStore ⟨0x02, 1, 5, 0x81, 0⟩ = .stall
        ∨ dispatchStandard sampleStore ⟨0x02, 1, 5, 0x81, 0⟩ = .ack) :=
  feature_selector_gate sampleStore ⟨0x02, 1, 5, 0x81, 0⟩ (Or.inl rfl)

/-- C8: when GET_DESCRIPTOR locates its descriptor, the data stage carries
exactly min(descriptor length, wLength) bytes: a shorter wLength truncates
without stalling and a wLength at least the descriptor length returns the
full descriptor untruncated. -/
theorem get_descriptor_truncation (st : DescriptorStore) (s : SetupData)
    (bytes : List Nat)
    (hreq : s.bRequest = USB_REQ_GET_DESCRIPTOR)
    (hfound : getDescriptor st (s.wValue / 256) (s.wValue % 256) s.wIndex = some bytes) :
    dispatchStandard st s = .reply (bytes.take s.wLength)
    ∧ dispatchStandard st s ≠ .stall
    ∧ (bytes.take s.wLength).length = min bytes.length s.wLength
    ∧ (bytes.length ≤ s.wLength → bytes.take s.wLength = bytes) := by
  have hd : dispatchStandard st s = handleGetDescriptor st s := by
    simp [dispatchStandard, hreq, USB_REQ_GET_STATUS, USB_REQ_CLEAR_FEATURE,
      USB_REQ_SET_FEATURE, USB_REQ_SET_ADDRESS, USB_REQ_GET_DESCRIPTOR]
  have hr : dispatchStandard st s = .reply (bytes.take s.wLength) := by
    rw [hd]
    simp [handleGetDescriptor, hfound]
  refine ⟨hr, by simp [hr], ?_, fun hle => List.take_of_length_le hle⟩
  simp [List.length_take, Nat.min_comm]

/-- Witness for C8, the spec's scenario: GET_DESCRIPTOR with
wValue = 0x0100 (DEVICE, index 0) and wLength = 64 returns the full 18-byte
device descriptor, untruncated since 18 < 64. -/
theorem get_descriptor_truncation_witness :
    dispatchStandard sampleStore ⟨0x80, 6, 0x0100, 0, 64⟩
      = .reply (sampleStore.device.serialize.take 64)
    ∧ dispatchStandard sampleStore ⟨0x80, 6, 0x0100, 0, 64⟩ ≠ .stall
    ∧ (sampleStore.device.serialize.take 64).length
        = min sampleStore.device.serialize.length 64
    ∧ (sampleStore.device.serialize.length ≤ 64 →
        sampleStore.device.serialize.take 64 = sampleStore.device.serialize) :=
  get_descriptor_truncation sampleStore ⟨0x80, 6, 0x0100, 0, 64⟩
    sampleStore.device.serialize (by decide) (by decide)

/-- Helper: each serialised interface descriptor contributes 9 bytes. -/
theorem flatten_interfaces_length (l : List UsbInterfaceDescriptor) :
    ((l.map UsbInterfaceDescriptor.serialize).flatten).length = 9 * l.length := by
  induction l with
  | nil => simp
  | cons a t ih => simp [UsbInterfaceDescriptor.serialize, ih]; omega

/-- Helper: each serialised endpoint descriptor contributes 7 bytes. -/
theorem flatten_endpoints_length (l : List UsbEndpointDescriptor) :
    ((l.map UsbEndpointDescriptor.serialize).flatten).length = 7 * l.length := by
  induction l with
  | nil => simp
  | cons a t ih => simp [UsbEndpointDescriptor.serialize, le16, ih]; omega

/-- Helper: sum of the serialised interface lengths. -/
theorem sum_interfaces_length (l : List UsbInterfaceDescriptor) :
    (l.map fun i => i.serialize.length).sum = 9 * l.length := by
  induction l with
  | nil => simp
  | cons a t ih => simp [UsbInterfaceDescriptor.serialize, ih]; omega

/-- Helper: sum of the serialised endpoint lengths. -/
theorem sum_endpoints_length (l : List UsbEndpointDescriptor) :
    (l.map fun e => e.serialize.length).sum = 7 * l.length := by
  induction l with
  | nil => simp
  | cons a t ih => simp [UsbEndpointDescriptor.serialize, le16, ih]; omega

/-- Helper: composed-map form of the interface length sum. -/
theorem sum_comp_interfaces (l : List UsbInterfaceDescriptor) :
    (l.map (List.length ∘ UsbInterfaceDescriptor.serialize)).sum = 9 * l.length := by
  induction l with
  | nil => simp
  | cons a t ih => simp [Function.comp, UsbInterfaceDescriptor.serialize, ih]; omega

/-- Helper: composed-map form of the endpoint length sum. -/
theorem sum_comp_endpoints (l : List UsbEndpointDescriptor) :
    (l.map (List.length ∘ UsbEndpointDescriptor.serialize)).sum = 7 * l.length := by
  induction l with
  | nil => simp
  | cons a t ih => simp [Function.comp, UsbEndpointDescriptor.serialize, le16, ih]; omega

/-- Helper: composed-map form of the 16-bit code unit length sum. -/
theorem sum_comp_le16 (l : List Nat) :
    (l.map (List.length ∘ le16)).sum = 2 * l.length := by
  induction l with
  | nil => simp
  | cons a t ih => simp [Function.comp, le16, ih]; omega

/-- C7: under the build-time invariant, the wTotalLength field of the
configuration descriptor equals its own length (9) plus the sum of the
lengths of all nested interface and endpoint descriptors, and GET_DESCRIPTOR
on CONFIGURATION serves them as a single contiguous byte sequence of exactly
wTotalLength bytes. -/
theorem config_wTotalLength_invariant (st : DescriptorStore) (idx lang : Nat)
    (h : st.TotalLengthWF) :
    getDescriptor st USB_DESCRIPTOR_TYPE_CONFIGURATION idx lang = some st.configBundle
    ∧ st.configBundle.length = st.config.wTotalLength
    ∧ st.config.wTotalLength
        = st.config.serialize.length
          + ((st.interfaces.map fun i => i.serialize.length).sum
             + (st.endpoints.map fun e => e.serialize.length).sum) := by
  unfold DescriptorStore.TotalLengthWF at h
  refine ⟨?_, ?_, ?_⟩
  · simp [getDescriptor, USB_DESCRIPTOR_TYPE_DEVICE, USB_DESCRIPTOR_TYPE_CONFIGURATION]
  · simp [DescriptorStore.configBundle, UsbConfigDescriptor.serialize, le16,
      flatten_interfaces_length, flatten_endpoints_length,
      sum_comp_interfaces, sum_comp_endpoints, h]
    omega
  · simp [UsbConfigDescriptor.serialize, le16, sum_interfaces_length,
      sum_endpoints_length, h]
    omega

/-- Witness for C7 at the concrete sample table. -/
theorem config_wTotalLength_invariant_witness :
    getDescriptor sampleStore USB_DESCRIPTOR_TYPE_CONFIGURATION 0 0
      = some sampleStore.configBundle
    ∧ sampleStore.configBundle.length = sampleStore.config.wTotalLength
    ∧ sampleStore.config.wTotalLength
        = sampleStore.config.serialize.length
          + ((sampleStore.interfaces.map fun i => i.serialize.length).sum
             + (sampleStore.endpoints.map fun e => e.serialize.length).sum) :=
  config_wTotalLength_invariant sampleStore 0 0
    (by unfold DescriptorStore.TotalLengthWF; decide)

/-- Counterexample to C6 as stated: on a fully well-formed store whose
configuration declares one interface, GET_DESCRIPTOR(CONFIGURATION) serves
the contiguous 18-byte bundle whose first byte is 9 (the configuration
descriptor's own bLength), not the total serialized length. -/
theorem descriptor_first_byte_counterexample :
    DescriptorStore.WF sampleStore
    ∧ DescriptorStore.TotalLengthWF sampleStore
    ∧ getDescriptor sampleStore USB_DESCRIPTOR_TYPE_CONFIGURATION 0 USB_LANG_ENGLISH_US
        = some sampleStore.configBundle
    ∧ sampleStore.configBundle.head? = some 9
    ∧ sampleStore.configBundle.length = 18
    ∧ sampleStore.configBundle.head? ≠ some sampleStore.configBundle.length := by
  unfold DescriptorStore.WF DescriptorStore.TotalLengthWF
  decide

/-- C6 as amended: every DEVICE, STRING or LANGUAGE descriptor served by
getDescriptor has first byte equal to its total serialized length; the
CONFIGURATION request serves the contiguous bundle, whose first byte is the
configuration descriptor's own 9-byte length and whose constituent interface
and endpoint descriptors are each individually self-describing; in
particular a string descriptor built by STR_DESCR with len 16-bit code units
has bLength = 2*len + 2, its 2 header bytes plus 2 bytes per code unit. -/
theorem descriptor_first_byte_amended (st : DescriptorStore) (ty idx lang : Nat)
    (bytes : List Nat) (hwf : st.WF)
    (hserve : getDescriptor st ty idx lang = some bytes) :
    (ty ≠ USB_DESCRIPTOR_TYPE_CONFIGURATION → bytes.head? = some bytes.length)
    ∧ (ty = USB_DESCRIPTOR_TYPE_CONFIGURATION →
        bytes = st.configBundle
        ∧ bytes.head? = some st.config.serialize.length
        ∧ (∀ i ∈ st.interfaces, i.serialize.head? = some i.serialize.length)
        ∧ (∀ e ∈ st.endpoints, e.serialize.head? = some e.serialize.length))
    ∧ (∀ len units, units.length = len →
        (STR_DESCR len units).bLength = 2 * len + 2
        ∧ (STR_DESCR len units).serialize.length = 2 * len + 2) := by
  obtain ⟨hdev, hcfg, hifaces, heps, hlang, hstr⟩ := hwf
  have hstrd : ∀ (len : Nat) (units : List Nat), units.length = len →
      (STR_DESCR len units).bLength = 2 * len + 2
      ∧ (STR_DESCR len units).serialize.length = 2 * len + 2 := by
    intro len units hu
    constructor
    · simp [STR_DESCR]; omega
    · simp [STR_DESCR, UsbStringDescriptor.serialize, flatten_le16_length,
        sum_comp_le16, hu]
  unfold getDescriptor at hserve
  split at hserve
  case isTrue h1 =>
    injection hserve with hb
    subst hb
    refine ⟨fun _ => ?_, fun h2 => ?_, hstrd⟩
    · simp [UsbDeviceDescriptor.serialize, le16, hdev]
    · rw [h1] at h2
      exact absurd h2 (by decide)
  case isFalse h1 =>
    split at hserve
    case isTrue h2 =>
      injection hserve with hb
      subst hb
      refine ⟨fun hne => absurd h2 hne, fun _ => ⟨rfl, ?_, ?_, ?_⟩, hstrd⟩
      · simp [DescriptorStore.configBundle, UsbConfigDescriptor.serialize, le16, hcfg]
      · intro i hi
        have h9 := hifaces i hi
        simp [UsbInterfaceDescriptor.serialize, h9]
      · intro e he
        have h7 := heps e he
        simp [UsbEndpointDescriptor.serialize, le16, h7]
    case isFalse h2 =>
      split at hserve
      case isTrue h3 =>
        split at hserve
        case isTrue h4 =>
          injection hserve with hb
          subst hb
          refine ⟨fun _ => ?_, fun hc => absurd hc h2, hstrd⟩
          simp [mkLanguageDescriptor, UsbLanguageDescriptor.serialize,
            flatten_le16_length, sum_comp_le16]
          omega
        case isFalse h4 =>
          split at hserve
          case isTrue h5 =>
            obtain ⟨units, hu, hbytes⟩ := Option.map_eq_some'.mp hserve
            subst hbytes
            refine ⟨fun _ => ?_, fun hc => absurd hc h2, hstrd⟩
            have hmem : units ∈ st.strings := List.getElem?_mem hu
            have hbound := hstr units hmem
            simp [STR_DESCR, UsbStringDescriptor.serialize, flatten_le16_length,
              sum_comp_le16]
            omega
          case isFalse h5 =>
            simp at hserve
      case isFalse h3 =>
        simp at hserve

/-- Witness for the amended C6: the sample store's first string descriptor,
served with a supported language, is self-describing. -/
theorem descriptor_first_byte_amended_witness :
    (STR_DESCR 2 [72, 105]).serialize.head?
      = some (STR_DESCR 2 [72, 105]).serialize.length :=
  (descriptor_first_byte_amended sampleStore USB_DESCRIPTOR_TYPE_STRING 1
      USB_LANG_ENGLISH_US ((STR_DESCR 2 [72, 105]).serialize)
      (by unfold DescriptorStore.WF; decide) (by decide)).1 (by decide)

/-- C9: in every interleaving step of the interrupt/foreground system, each
of the three signal flags rises only together with its interrupt-context
producer recording a new event, and falls only together with its foreground
consumer recording an observation (the consumer's check-and-clear is a
single atomic step, so no raise can land between check and clear and be
lost); moreover along every interleaving reachable from the initial state a
set flag always has an unconsumed producer event backing it. -/
theorem semaphore_handoff_atomic :
    (∀ s t : SigSystem, SysStep s t →
        ((s.Semaphore_Command.flag = false ∧ t.Semaphore_Command.flag = true) →
          t.Semaphore_Command.raised = s.Semaphore_Command.raised + 1)
        ∧ ((s.Semaphore_Command.flag = true ∧ t.Semaphore_Command.flag = false) →
          t.Semaphore_Command.consumed = s.Semaphore_Command.consumed + 1)
        ∧ (t.Semaphore_Command.raised = s.Semaphore_Command.raised + 1 →
          t.Semaphore_Command.flag = true)
        ∧ (t.Semaphore_Command.consumed = s.Semaphore_Command.consumed + 1 →
          s.Semaphore_Command.flag = true ∧ t.Semaphore_Command.flag = false)
        ∧ ((s.Semaphore_EP2_out.flag = false ∧ t.Semaphore_EP2_out.flag = true) →
          t.Semaphore_EP2_out.raised = s.Semaphore_EP2_out.raised + 1)
        ∧ ((s.Semaphore_EP2_out.flag = true ∧ t.Semaphore_EP2_out.flag = false) →
          t.Semaphore_EP2_out.consumed = s.Semaphore_EP2_out.consumed + 1)
        ∧ (t.Semaphore_EP2_out.raised = s.Semaphore_EP2_out.raised + 1 →
          t.Semaphore_EP2_out.flag = true)
        ∧ (t.Semaphore_EP2_out.consumed = s.Semaphore_EP2_out.consumed + 1 →
          s.Semaphore_EP2_out.flag = true ∧ t.Semaphore_EP2_out.flag = false)
        ∧ ((s.Semaphore_EP2_in.flag = false ∧ t.Semaphore_EP2_in.flag = true) →
          t.Semaphore_EP2_in.raised = s.Semaphore_EP2_in.raised + 1)
        ∧ ((s.Semaphore_EP2_in.flag = true ∧ t.Semaphore_EP2_in.flag = false) →
          t.Semaphore_EP2_in.consumed = s.Semaphore_EP2_in.consumed + 1)
        ∧ (t.Semaphore_EP2_in.raised = s.Semaphore_EP2_in.raised + 1 →
          t.Semaphore_EP2_in.flag = true)
        ∧ (t.Semaphore_EP2_in.consumed = s.Semaphore_EP2_in.consumed + 1 →
          s.Semaphore_EP2_in.flag = true ∧ t.Semaphore_EP2_in.flag = false))
    ∧ (∀ s : SigSystem, Reaches initSignals s → s.Inv) := by
  constructor
  · intro s t h
    cases h <;>
      refine ⟨?_, ?_, ?_, ?_, ?_, ?_, ?_, ?_, ?_, ?_, ?_, ?_⟩ <;>
      simp_all
  · intro s hr
    unfold Reaches at hr
    induction hr with
    | refl => simp [SigSystem.Inv, Channel.Inv, initSignals]
    | tail _ hbc ih =>
      simp only [SigSystem.Inv, Channel.Inv] at ih ⊢
      cases hbc <;> simp_all <;> omega

/-- Witness for C9: the initial state satisfies the invariant, and the
producer step raising Semaphore_Command from the initial state is matched by
the instantiated step facts. -/
theorem semaphore_handoff_atomic_witness :
    SigSystem.Inv initSignals
    ∧ ((initSignals.Semaphore_Command.flag = false
          ∧ raisedOnce.Semaphore_Command.flag = true) →
        raisedOnce.Semaphore_Command.raised
          = initSignals.Semaphore_Command.raised + 1)
    ∧ (raisedOnce.Semaphore_Command.consumed
          = initSignals.Semaphore_Command.consumed + 1 →
        initSignals.Semaphore_Command.flag = true
          ∧ raisedOnce.Semaphore_Command.flag = false) :=
  ⟨semaphore_handoff_atomic.2 initSignals Relation.ReflTransGen.refl,
   (semaphore_handoff_atomic.1 initSignals raisedOnce (SysStep.isrSetup initSignals)).1,
   (semaphore_handoff_atomic.1 initSignals raisedOnce
      (SysStep.isrSetup initSignals)).2.2.2.1⟩

end Usb
